import Mathlib

/-!
A verification development for the alterguard migration tool.

The Go sources are embedded shallowly: pure helpers become Lean functions on
`String` / `List Char`, database and subprocess interactions become explicit
oracle parameters recording their results, and the observable calls issued by
the orchestrator become an explicit effect trace.  Machine integers (`int64`)
are modelled as `Int`; the two `float64` computations that matter (the swap
parity percentage and the buffer-pool size) are modelled over `ℚ`, which agrees
with the source's binary floating point on every comparison used here.
-/

namespace Alterguard

/-! ## Go string primitives

Faithful models of the `strings` standard-library functions the sources use.
All call sites in the repository pass non-empty separators and patterns, so the
empty-separator behaviour of `strings.Split` / `strings.ReplaceAll` (UTF-8
explosion) is irrelevant and the empty case is given a simple total value. -/

/-- The characters accepted by Go's `unicode.IsSpace` within Latin-1, the set
`strings.TrimSpace` trims. -/
def goIsSpace (c : Char) : Bool :=
  c = ' ' || c = '\t' || c = '\n' || c = '\x0B' || c = '\x0C' || c = '\r' ||
  c = '\u0085' || c = '\u00A0'

/-- Go `strings.TrimSpace`. -/
def goTrimSpace (s : String) : String :=
  String.mk (((s.toList.dropWhile goIsSpace).reverse.dropWhile goIsSpace).reverse)

/-- Go `strings.ToLower` (the sources only ever feed it ASCII). -/
def goToLower (s : String) : String := String.mk (s.toList.map Char.toLower)

/-- Go `strings.ToUpper` (the sources only ever feed it ASCII). -/
def goToUpper (s : String) : String := String.mk (s.toList.map Char.toUpper)

/-- Model of Go `strings.HasPrefix(s, pat)` on character lists (arguments
reversed: the pattern comes first). -/
def listStartsWith : List Char → List Char → Bool
  | [], _ => true
  | _ :: _, [] => false
  | p :: ps, c :: cs => p = c && listStartsWith ps cs

/-- Model of Go `strings.Contains(s, pat)` on character lists (arguments
reversed: the pattern comes first). -/
def listContainsSub (pat : List Char) : List Char → Bool
  | [] => pat.isEmpty
  | c :: rest => listStartsWith pat (c :: rest) || listContainsSub pat rest

/-- Go `strings.HasPrefix`. -/
def goStartsWith (s pat : String) : Bool := listStartsWith pat.toList s.toList

/-- Go `strings.Contains`. -/
def strContains (s pat : String) : Bool := listContainsSub pat.toList s.toList

/-- Go `strings.Join`. -/
def goJoin (elems : List String) (sep : String) : String :=
  match elems with
  | [] => ""
  | e :: rest => rest.foldl (fun acc x => acc ++ sep ++ x) e

/-- Go `strings.Split` with the non-empty separator `s0 :: srest`, on
character lists.  The recursion is driven by a fuel argument so that it stays
structural (and hence reduces inside the kernel); since a separator match
consumes at least one character, any `fuel ≥ s.length` computes the exact
`strings.Split` value. -/
def listSplitNE (s0 : Char) (srest : List Char) : Nat → List Char → List (List Char)
  | 0, _ => [[]]
  | _ + 1, [] => [[]]
  | fuel + 1, c :: rest =>
    if listStartsWith (s0 :: srest) (c :: rest) then
      [] :: listSplitNE s0 srest fuel (rest.drop srest.length)
    else
      match listSplitNE s0 srest fuel rest with
      | [] => [[c]]
      | hd :: tl => (c :: hd) :: tl

/-- Go `strings.Split` (every call site passes a non-empty separator). -/
def goSplit (s sep : String) : List String :=
  match sep.toList with
  | [] => [s]
  | s0 :: srest => (listSplitNE s0 srest s.toList.length s.toList).map String.mk

/-- Go `strings.ReplaceAll` with the non-empty pattern `p0 :: prest`, on
character lists, fuelled like `listSplitNE`. -/
def listReplaceNE (p0 : Char) (prest rep : List Char) : Nat → List Char → List Char
  | 0, s => s
  | _ + 1, [] => []
  | fuel + 1, c :: rest =>
    if listStartsWith (p0 :: prest) (c :: rest) then
      rep ++ listReplaceNE p0 prest rep fuel (rest.drop prest.length)
    else
      c :: listReplaceNE p0 prest rep fuel rest

/-- Go `strings.ReplaceAll` (every call site passes a non-empty pattern). -/
def goReplaceAll (s pat rep : String) : String :=
  match pat.toList with
  | [] => s
  | p0 :: prest => String.mk (listReplaceNE p0 prest rep.toList s.toList.length s.toList)

/-! ## Connection-string parsing (internal/ptosc and internal/ptarchiver) -/

/-- Success predicate of Go `strconv.Atoi`: optional sign, one or more ASCII
digits, value within the signed 64-bit range. -/
def isAtoiValid (s : String) : Bool :=
  let chars := s.toList
  let digits := if chars.head? = some '+' || chars.head? = some '-' then chars.drop 1 else chars
  !digits.isEmpty && digits.all Char.isDigit &&
    (let v := digits.foldl (fun acc c => acc * 10 + (c.toNat - 48)) 0
     if chars.head? = some '-' then v ≤ 9223372036854775808 else v ≤ 9223372036854775807)

/-- The five outputs of `ParseDSN`: a parsed
`user[:password]@tcp(host:port)/database` connection string. -/
structure ConnInfo where
  host : String
  port : String
  database : String
  user : String
  password : String
deriving DecidableEq

deriving instance DecidableEq for Except

namespace Ptosc

/-- Tail of `PtOscExecutor.ParseDSN` after the `user[:password]` split: checks
the `(` marker, splits `host:port` from the database segment, and validates the
port with `strconv.Atoi`.  The database segment is returned as-is. -/
def parseHostSection (hostPart user password : String) : Except String ConnInfo :=
  if !goStartsWith hostPart "(" then .error "only TCP connections are supported"
  else
    match goSplit (String.mk (hostPart.toList.drop 1)) ")/" with
    | [hostPort, database] =>
      match goSplit hostPort ":" with
      | [host, port] =>
        if !isAtoiValid port then .error ("invalid port number: " ++ port)
        else .ok ⟨host, port, database, user, password⟩
      | _ => .error "invalid host:port format"
    | _ => .error "invalid DSN format"

/-- Model of `PtOscExecutor.ParseDSN` (internal/ptosc/executor.go). -/
def parseDSN (dsn : String) : Except String ConnInfo :=
  match goSplit dsn "@tcp" with
  | [userPart, hostPart] =>
    match goSplit userPart ":" with
    | [u] => parseHostSection hostPart u ""
    | [u, p] => parseHostSection hostPart u p
    | _ => .error "invalid user:password format"
  | _ => .error "invalid DSN format"

/-- The prefix set of `containsErrorPattern`. -/
def errorHeads : List String :=
  ["error:", "fatal:", "pt-online-schema-change: error", "pt-online-schema-change: fatal"]

/-- The substring set of `containsErrorPattern` (known MySQL error phrases). -/
def mysqlErrorPhrases : List String :=
  ["you have an error in your sql syntax", "unknown column", "unknown table",
   "duplicate column name", "duplicate key name", "doesn't exist",
   "can't create table", "can't drop table", "can't add foreign key constraint",
   "duplicate entry", "column cannot be null", "data too long for column",
   "out of range value", "access denied", "connection refused", "lost connection",
   "cannot connect to mysql", "cannot read response", "can't locate term/readkey",
   "operation failed"]

/-- Model of `PtOscExecutor.containsErrorPattern`: case-insensitive test of one
output line against the error-pattern set. -/
def containsErrorPattern (line : String) : Bool :=
  let l := goToLower (goTrimSpace line)
  errorHeads.any (fun p => goStartsWith l p) || mysqlErrorPhrases.any (fun p => strContains l p)

/-- Observable outcome of one supervised subprocess: the `cmd.Wait` error (none
when the exit status is zero) and the output lines scanned by the two drain
loops, in arrival order. -/
structure ProcessRun where
  exitError : Option String
  outputLines : List String

/-- The `errorMessages` accumulated by the drain loops: every line matching the
error-pattern set, in order. -/
def detectedErrorLines (lines : List String) : List String :=
  lines.filter containsErrorPattern

/-- The verdict of `PtOscExecutor.ExecuteAlter` once the subprocess has been
reaped: `none` is success, `some msg` is the returned error message. -/
def executeAlterVerdict (tableName : String) (run : ProcessRun) : Option String :=
  let msgs := detectedErrorLines run.outputLines
  let hasError := !msgs.isEmpty
  match run.exitError with
  | some cmdErr =>
    if hasError then
      some ("pt-online-schema-change failed for table " ++ tableName ++ ": " ++ cmdErr ++
        " (detected errors: " ++ goJoin msgs "; " ++ ")")
    else
      some ("pt-online-schema-change failed for table " ++ tableName ++ ": " ++ cmdErr)
  | none =>
    if hasError then
      some ("pt-online-schema-change detected errors for table " ++ tableName ++ ": " ++
        goJoin msgs "; ")
    else none

end Ptosc

/-- Configuration block consumed by `BuildArgsWithPassword` in the pt-osc
executor.  `MaxLag` is a `float64` rendered with `%f`; it is modelled over `ℚ`. -/
structure PtOscConfig where
  charset : String
  recursionMethod : String
  noSwapTables : Bool
  chunkSize : Int
  maxLag : ℚ
  statistics : Bool
  dryRun : Bool
  noDropTriggers : Bool
  noDropNewTable : Bool
  noDropOldTable : Bool
deriving DecidableEq

/-- Left-pads a decimal string with zeros to width `w`. -/
def padZeros (w : Nat) (s : String) : String :=
  if s.length ≥ w then s else String.mk (List.replicate (w - s.length) '0') ++ s

/-- Go `fmt.Sprintf("%f", x)`: six fractional digits, modelled over `ℚ` with
round-half-up (the configuration decimals used for `max-lag` render
identically). -/
def fmtF6 (q : ℚ) : String :=
  let sign := if q < 0 then "-" else ""
  let scaled : ℤ := ⌊|q| * 1000000 + 1 / 2⌋
  sign ++ toString (scaled / 1000000) ++ "." ++ padZeros 6 (toString (scaled % 1000000))

namespace Ptosc

/-- Tail of the pt-osc argument construction: the configuration-only flags
from `--no-swap-tables` through the mutually exclusive `--dry-run` /
`--execute` pair, followed by the connection specifier.  Split out of
`argsFromConn` (it is the part of the source after the password flag has been
decided and mentions neither the password nor its presence). -/
def flagTail (cfg : PtOscConfig) (forceDryRun : Bool) (ptOscDSN : String)
    (args0 : List String) : List String :=
  let args := if cfg.noSwapTables then args0 ++ ["--no-swap-tables"] else args0
  let args := if cfg.chunkSize > 0 then args ++ ["--chunk-size=" ++ toString cfg.chunkSize] else args
  let args := if cfg.maxLag > 0 then args ++ ["--max-lag=" ++ fmtF6 cfg.maxLag] else args
  let args := if cfg.statistics then args ++ ["--statistics"] else args
  let args := if cfg.noDropTriggers then args ++ ["--no-drop-triggers"] else args
  let args := if cfg.noDropNewTable then args ++ ["--no-drop-new-table"] else args
  let args := if cfg.noDropOldTable then args ++ ["--no-drop-old-table"] else args
  let args := if forceDryRun || cfg.dryRun then args ++ ["--dry-run"] else args ++ ["--execute"]
  args ++ [ptOscDSN]

/-- Argument construction of `PtOscExecutor.BuildArgsWithPassword` after the
DSN parse, exactly in source order.  The password influences the list only
through the presence of the constant `--ask-pass` flag; it is returned
separately to be fed over standard input. -/
def argsFromConn (conn : ConnInfo) (tableName alterStatement : String)
    (cfg : PtOscConfig) (forceDryRun : Bool) : List String :=
  let ptOscDSN := "h=" ++ conn.host ++ ",P=" ++ conn.port ++ ",D=" ++ conn.database ++
    ",t=" ++ tableName ++ ",u=" ++ conn.user
  let args := ["--alter=" ++ alterStatement]
  let args := if cfg.charset ≠ "" then args ++ ["--charset=" ++ cfg.charset] else args
  let args :=
    if cfg.recursionMethod ≠ "" then
      let method := goReplaceAll (goReplaceAll cfg.recursionMethod "<db>" conn.database)
        "<table>" tableName
      let args := args ++ ["--recursion-method=" ++ method]
      if method = "dsn" then args ++ ["--recursion-dsn=" ++ ptOscDSN] else args
    else args
  let args := if conn.password ≠ "" then args ++ ["--ask-pass"] else args
  flagTail cfg forceDryRun ptOscDSN args

/-- Model of `PtOscExecutor.BuildArgsWithPassword`: parses the DSN and builds the
argument list; the second component is the password handed to the subprocess
over standard input. -/
def buildArgsWithPassword (tableName alterStatement : String) (cfg : PtOscConfig)
    (rawDSN : String) (forceDryRun : Bool) : Except String (List String × String) :=
  match parseDSN rawDSN with
  | .error e => .error ("failed to parse DSN: " ++ e)
  | .ok conn => .ok (argsFromConn conn tableName alterStatement cfg forceDryRun, conn.password)

end Ptosc

/-- Configuration block consumed by the pt-archiver executor.  The struct
declaration itself is not among the supplied sources; its fields and their
types are reconstructed from every use in
internal/ptarchiver/executor.go and the orchestrator. -/
structure PtArchiverConfig where
  enabled : Bool
  whereClause : String
  limit : Int
  commitEach : Bool
  progress : Int
  maxLag : ℚ
  noCheckCharset : Bool
  bulkDelete : Bool
  primaryKeyOnly : Bool
  statistics : Bool
deriving DecidableEq

namespace Ptarchiver

/-- Tail of `PtArchiverExecutor.ParseDSN` after the `user[:password]` split:
unlike the pt-osc variant it strips `?`-suffixed query parameters from the
database segment and does not validate the port number. -/
def parseHostSection (hostPart user password : String) : Except String ConnInfo :=
  if !goStartsWith hostPart "(" then .error "only TCP connections are supported"
  else
    match goSplit (String.mk (hostPart.toList.drop 1)) ")/" with
    | [hostPort, database0] =>
      let database :=
        if strContains database0 "?" then (goSplit database0 "?").headD "" else database0
      match goSplit hostPort ":" with
      | [host, port] => .ok ⟨host, port, database, user, password⟩
      | _ => .error "invalid host:port format"
    | _ => .error "invalid DSN format"

/-- Model of `PtArchiverExecutor.ParseDSN` (internal/ptarchiver/executor.go). -/
def parseDSN (dsn : String) : Except String ConnInfo :=
  match goSplit dsn "@tcp" with
  | [userPart, hostPart] =>
    match goSplit userPart ":" with
    | [u] => parseHostSection hostPart u ""
    | [u, p] => parseHostSection hostPart u p
    | _ => .error "invalid user:password format"
  | _ => .error "invalid DSN format"

/-- Argument construction of `PtArchiverExecutor.BuildArgsWithPassword` after
the DSN parse, exactly in source order.  A non-empty password is placed on the
command line as `--password=<password>`. -/
def argsFromConn (conn : ConnInfo) (tableName : String) (cfg : PtArchiverConfig)
    (dryRun : Bool) : List String :=
  let sourceSpec := "h=" ++ conn.host ++ ",P=" ++ conn.port ++ ",D=" ++ conn.database ++
    ",t=" ++ tableName
  let args := ["--source=" ++ sourceSpec, "--user=" ++ conn.user]
  let args := if conn.password ≠ "" then args ++ ["--password=" ++ conn.password] else args
  let args :=
    if cfg.whereClause ≠ "" then args ++ ["--where=" ++ cfg.whereClause]
    else args ++ ["--where=1=1"]
  let args := if cfg.limit > 0 then args ++ ["--limit=" ++ toString cfg.limit] else args
  let args := if cfg.commitEach then args ++ ["--commit-each"] else args
  let args := args ++ ["--purge"]
  let args := if cfg.progress > 0 then args ++ ["--progress=" ++ toString cfg.progress] else args
  let args := if cfg.maxLag > 0 then args ++ ["--max-lag=" ++ fmtF6 cfg.maxLag] else args
  let args := if cfg.noCheckCharset then args ++ ["--no-check-charset"] else args
  let args := if cfg.bulkDelete then args ++ ["--bulk-delete"] else args
  let args := if cfg.primaryKeyOnly then args ++ ["--primary-key-only"] else args
  let args := if cfg.statistics then args ++ ["--statistics"] else args
  if dryRun then args ++ ["--dry-run"] else args

/-- Model of `PtArchiverExecutor.BuildArgsWithPassword`. -/
def buildArgsWithPassword (tableName : String) (cfg : PtArchiverConfig)
    (rawDSN : String) (dryRun : Bool) : Except String (List String × String) :=
  match parseDSN rawDSN with
  | .error e => .error ("failed to parse DSN: " ++ e)
  | .ok conn => .ok (argsFromConn conn tableName cfg dryRun, conn.password)

end Ptarchiver

/-! ## Statement classification and table extraction (internal/task/manager.go)

The three table-name patterns and the alter-body pattern are simple enough
that their Go `regexp` (RE2, leftmost-first) semantics can be modelled by a
direct scanner.  Two places where the regular expressions could in principle
backtrack are handled exactly:

* the captured name class `[^`]` excludes both the backtick and every
  whitespace character, so shortening a greedy name capture or a greedy `\s+`
  run can never turn a failed continuation into a success — matching both
  greedily without backtracking is equivalent;
* the optional `IF NOT EXISTS` / `IF EXISTS` group and the trailing
  `\s+(.+)` of the alter-body pattern genuinely backtrack, and are modelled
  with explicit fallbacks (`matchCreateTableAt`, `tailTry`). -/

/-- Characters of the RE2 class `\s` (`[\t\n\f\r ]`). -/
def goRegexpWs (c : Char) : Bool :=
  c = '\t' || c = '\n' || c = '\x0C' || c = '\r' || c = ' '

/-- The backtick character (written via its code point throughout). -/
def backtickChar : Char := Char.ofNat 96

/-- Characters admitted by the captured table-name class: anything except a
backtick or RE2 whitespace. -/
def isNameChar (c : Char) : Bool := !(c = backtickChar || goRegexpWs c)

/-- Case-insensitive literal match: consumes `pat` from the front of `s` and
returns the remainder. -/
def ciMatch : List Char → List Char → Option (List Char)
  | [], s => some s
  | _ :: _, [] => none
  | p :: ps, c :: cs => if c.toLower = p.toLower then ciMatch ps cs else none

/-- Greedy `\s+`: requires at least one whitespace character and consumes the
maximal run. -/
def ws1 (s : List Char) : Option (List Char) :=
  if (s.takeWhile goRegexpWs).isEmpty then none else some (s.dropWhile goRegexpWs)

/-- Greedy optional backtick. -/
def dropOptBacktick : List Char → List Char
  | [] => []
  | c :: rest => if c = backtickChar then rest else c :: rest

/-- Captures the table name at the current position: optional backtick, then
one or more name characters (the trailing optional backtick captures
nothing and cannot invalidate the match). -/
def tableNameAt (s : List Char) : Option (List Char) :=
  let s1 := dropOptBacktick s
  let name := s1.takeWhile isNameChar
  if name.isEmpty then none else some name

/-- Leftmost-first search: the match attempt at the earliest starting position
wins, as in Go `regexp.FindStringSubmatch`. -/
def searchPos (m : List Char → Option (List Char)) : List Char → Option (List Char)
  | [] => m []
  | c :: rest => m (c :: rest) <|> searchPos m rest

/-- Match of the pattern `ALTER\s+TABLE\s+` + backtick? + name at one
position, capturing the name. -/
def matchAlterTableAt (s : List Char) : Option (List Char) := do
  let s1 ← ciMatch "alter".toList s
  let s2 ← ws1 s1
  let s3 ← ciMatch "table".toList s2
  let s4 ← ws1 s3
  tableNameAt s4

/-- Match of the CREATE TABLE pattern at one position, capturing the name; the
optional `IF\s+NOT\s+EXISTS\s+` group is tried greedily and the engine falls
back to the empty alternative when no name follows it. -/
def matchCreateTableAt (s : List Char) : Option (List Char) := do
  let s1 ← ciMatch "create".toList s
  let s2 ← ws1 s1
  let s3 ← ciMatch "table".toList s2
  let s4 ← ws1 s3
  let ifNotExistsTail : Option (List Char) := do
    let t1 ← ciMatch "if".toList s4
    let t2 ← ws1 t1
    let t3 ← ciMatch "not".toList t2
    let t4 ← ws1 t3
    let t5 ← ciMatch "exists".toList t4
    ws1 t5
  match ifNotExistsTail with
  | some t => tableNameAt t <|> tableNameAt s4
  | none => tableNameAt s4

/-- Match of the DROP TABLE pattern at one position, capturing the name; the
optional `IF\s+EXISTS\s+` group behaves like the CREATE variant. -/
def matchDropTableAt (s : List Char) : Option (List Char) := do
  let s1 ← ciMatch "drop".toList s
  let s2 ← ws1 s1
  let s3 ← ciMatch "table".toList s2
  let s4 ← ws1 s3
  let ifExistsTail : Option (List Char) := do
    let t1 ← ciMatch "if".toList s4
    let t2 ← ws1 t1
    let t3 ← ciMatch "exists".toList t2
    ws1 t3
  match ifExistsTail with
  | some t => tableNameAt t <|> tableNameAt s4
  | none => tableNameAt s4

/-- Go `strings.Trim(name, b)` for the backtick cut set. -/
def trimBackticks (name : List Char) : List Char :=
  ((name.dropWhile (fun c => c = backtickChar)).reverse.dropWhile
    (fun c => c = backtickChar)).reverse

/-- Model of `Manager.extractTableName`: tries the CREATE, ALTER and DROP
patterns in source order on the trimmed statement and backtick-trims the
captured name; empty string when nothing matches. -/
def extractTableName (query : String) : String :=
  let q := (goTrimSpace query).toList
  match searchPos matchCreateTableAt q with
  | some name => String.mk (trimBackticks name)
  | none =>
    match searchPos matchAlterTableAt q with
    | some name => String.mk (trimBackticks name)
    | none =>
      match searchPos matchDropTableAt q with
      | some name => String.mk (trimBackticks name)
      | none => ""

/-- Backtracking tail of the alter-body pattern `\s+(.+)`: the greedy `\s+`
tries the maximal whitespace run first and retreats one character at a time
until the dot-class capture (one or more non-newline characters) succeeds. -/
def tailTry (s : List Char) : Nat → Option (List Char)
  | 0 => none
  | k + 1 =>
    match s.drop (k + 1) with
    | [] => tailTry s k
    | c :: rest =>
      if c = '\n' then tailTry s k
      else some ((c :: rest).takeWhile (fun d => d ≠ '\n'))

/-- Entry point of the `\s+(.+)` tail at one position. -/
def tailCapture (s : List Char) : Option (List Char) :=
  tailTry s (s.takeWhile goRegexpWs).length

/-- Match of the alter-body pattern at one position, capturing the text after
the table name. -/
def matchAlterBodyAt (s : List Char) : Option (List Char) := do
  let s1 ← ciMatch "alter".toList s
  let s2 ← ws1 s1
  let s3 ← ciMatch "table".toList s2
  let s4 ← ws1 s3
  let s5 := dropOptBacktick s4
  let name := s5.takeWhile isNameChar
  if name.isEmpty then none
  else tailCapture (dropOptBacktick (s5.dropWhile isNameChar))

/-- Model of `Manager.extractAlterStatement`: the clause list following
`ALTER TABLE <name>`; empty string when the pattern does not match. -/
def extractAlterStatement (query : String) : String :=
  match searchPos matchAlterBodyAt query.toList with
  | some body => String.mk body
  | none => ""

/-- Model of `Manager.getQueryType`: classifies by upper-cased, trimmed
leading verb. -/
def getQueryType (query : String) : Except String String :=
  let q := goTrimSpace (goToUpper query)
  if goStartsWith q "CREATE" then .ok "CREATE"
  else if goStartsWith q "ALTER" then .ok "ALTER"
  else if goStartsWith q "DROP" then .ok "DROP"
  else .error ("unsupported type query:" ++ q)

/-- One parsed statement (`QueryInfo` in the source). -/
structure QueryInfo where
  query : String
  queryType : String
  tableName : String
deriving DecidableEq

/-- Model of `Manager.parseQueries`: classification failure of any statement
aborts the whole batch before anything is grouped or executed. -/
def parseQueries : List String → Except String (List QueryInfo)
  | [] => .ok []
  | q :: rest =>
    match getQueryType q with
    | .error e => .error e
    | .ok ty =>
      match parseQueries rest with
      | .error e => .error e
      | .ok infos =>
        .ok ({ query := goTrimSpace q, queryType := ty, tableName := extractTableName q } :: infos)

/-- Per-table aggregate (`TableGroup` in the source). -/
structure TableGroup where
  tableName : String
  alterParts : List String
  otherQueries : List QueryInfo
deriving DecidableEq

/-- One grouping step of `Manager.groupQueriesByTable`: an ALTER contributes
its extracted clause list (when non-empty) to `alterParts`, everything else
goes to `otherQueries`. -/
def addQueryToGroup (q : QueryInfo) (g : TableGroup) : TableGroup :=
  if q.queryType = "ALTER" then
    let alterPart := extractAlterStatement q.query
    if alterPart ≠ "" then { g with alterParts := g.alterParts ++ [alterPart] } else g
  else { g with otherQueries := g.otherQueries ++ [q] }

/-- Inserts one statement into the group list keyed by its table name,
creating the group on first encounter. -/
def insertQuery : List TableGroup → QueryInfo → List TableGroup
  | [], q => [addQueryToGroup q ⟨q.tableName, [], []⟩]
  | g :: gs, q =>
    if g.tableName = q.tableName then addQueryToGroup q g :: gs else g :: insertQuery gs q

/-- Model of `Manager.groupQueriesByTable`.  The source accumulates groups in
a Go map whose iteration order is unspecified; the model keys the same groups
in first-encounter order, which fixes one of the admissible orders and keeps
every group's content exact. -/
def groupQueriesByTable (queries : List QueryInfo) : List TableGroup :=
  queries.foldl (fun gs q => if q.tableName = "" then gs else insertQuery gs q) []

/-- Looks a group up by table name. -/
def findGroup (groups : List TableGroup) (tableName : String) : Option TableGroup :=
  groups.find? (fun g => g.tableName = tableName)

/-- The statements actually executed by the loop of
`Manager.executeAlterPartsAsSmallQueries`: one separate ALTER statement per
fragment. -/
def directAlterStatements (tableName : String) (alterParts : List String) : List String :=
  alterParts.map (fun alterPart => "ALTER TABLE " ++ tableName ++ " " ++ alterPart)

/-- The compound statement placed in the notifications of
`Manager.executeAlterPartsAsSmallQueries`: a single comma-joined ALTER,
backticks stripped and the whole wrapped in backticks. -/
def combinedAlterNotification (tableName : String) (alterParts : List String) : String :=
  "`" ++ goReplaceAll ("ALTER TABLE " ++ tableName ++ " " ++ goJoin alterParts ", ") "`" "" ++ "`"

/-- The single alter expression handed to the pt-osc executor by
`Manager.executeLargeAlterQuery`. -/
def combinedAlterForPtOsc (alterParts : List String) : String := goJoin alterParts ", "

/-! ## Strategy selection (`Manager.executeTableGroup`) -/

/-- The execution strategy chosen for one table group. -/
inductive AlterExecution
  | noAlter
  | direct (statements : List String)
  | onlineTool (tableName combinedAlter : String)
deriving DecidableEq

/-- Model of the decision logic of `Manager.executeTableGroup` for the ALTER
fragments of one group: no fragments means nothing to do; a row-count
resolution error downgrades to the direct path; otherwise the row count is
compared with the configured threshold, the direct path taken when
`rowCount <= threshold`. -/
def executeTableGroupPlan (tableName : String) (alterParts : List String)
    (rowCountResult : Except String Int) (threshold : Int) : AlterExecution :=
  if alterParts.isEmpty then .noAlter
  else
    match rowCountResult with
    | .error _ => .direct (directAlterStatements tableName alterParts)
    | .ok rowCount =>
      if rowCount ≤ threshold then .direct (directAlterStatements tableName alterParts)
      else .onlineTool tableName (combinedAlterForPtOsc alterParts)

/-! ## Database client (internal/database, historical revision in the sources) -/

/-- An error returned by the SQL driver: either a typed MySQL server error
carrying its error number, or any other error. -/
inductive DbError
  | mysqlError (number : Nat) (message : String)
  | other (message : String)
deriving DecidableEq

/-- Rendering of a driver error (`err.Error()` in Go). -/
def DbError.render : DbError → String
  | .mysqlError number message => "Error " ++ toString number ++ ": " ++ message
  | .other message => message

/-- Model of `database.IsDuplicateError`: a typed MySQL error with number 1062
(duplicate entry), 1061 (duplicate key name) or 1050 (table already exists). -/
def IsDuplicateError : DbError → Bool
  | .mysqlError number _ => number = 1062 || number = 1061 || number = 1050
  | .other _ => false

/-- Oracle form of one row-count SQL query result. -/
abbrev RowQuery := Except String Int

/-- Zero-verification step at the end of `MySQLClient.GetTableRowCount`: a
successful approximate tier reporting zero rows is re-checked with the exact
`COUNT(*)` query before being returned. -/
def verifyZeroCount (count : Int) (table : String) (exactCount : RowQuery) : RowQuery :=
  if count = 0 then
    match exactCount with
    | .error e =>
      .error ("failed to verify table row count with COUNT(*) for " ++ table ++ ": " ++ e)
    | .ok actual => .ok actual
  else .ok count

/-- Model of `MySQLClient.GetTableRowCount` over the results of its four
queries: tier A (`INNODB_SYS_TABLESTATS`), tier B (`INNODB_TABLESTATS`),
tier C (`information_schema.TABLES`), and the exact `COUNT(*)` used both as
final fallback and as zero-verification. -/
def GetTableRowCount (table : String) (tierA tierB tierC exact : RowQuery) : RowQuery :=
  match tierA with
  | .ok count => verifyZeroCount count table exact
  | .error _ =>
    match tierB with
    | .ok count => verifyZeroCount count table exact
    | .error _ =>
      match tierC with
      | .ok count => verifyZeroCount count table exact
      | .error _ =>
        match exact with
        | .ok count => .ok count
        | .error e => .error ("failed to get table row count for " ++ table ++ ": " ++ e)

/-- The first approximate statistics tier that succeeds, if any. -/
def firstApproxTier (tierA tierB tierC : RowQuery) : RowQuery :=
  match tierA with
  | .ok count => .ok count
  | .error _ =>
    match tierB with
    | .ok count => .ok count
    | .error _ => tierC

/-! ## Swap parity check (`Manager.checkRowCountDifference`) -/

/-- Go `fmt.Sprintf("%.2f", x)` modelled over `ℚ` with round-half-up. -/
def fmtF2 (q : ℚ) : String :=
  let sign := if q < 0 then "-" else ""
  let scaled : ℤ := ⌊|q| * 100 + 1 / 2⌋
  sign ++ toString (scaled / 100) ++ "." ++ padZeros 2 (toString (scaled % 100))

/-- The percentage difference computed by `Manager.checkRowCountDifference`:
the denominator is whichever count is larger, and both-zero yields zero (the
`diffPercent` variable keeps its zero value). -/
def diffPercent (originalCount newCount : Int) : ℚ :=
  if originalCount ≥ newCount then
    if originalCount > 0 then
      ((originalCount : ℚ) - (newCount : ℚ)) / (originalCount : ℚ) * 100
    else 0
  else ((newCount : ℚ) - (originalCount : ℚ)) / (newCount : ℚ) * 100

/-- Verdict of the parity comparison against the hard-coded 5% threshold:
`some msg` is the returned error, `none` lets the swap proceed. -/
def rowCountCheckError (originalCount newCount : Int) : Option String :=
  let d := diffPercent originalCount newCount
  if d > 5 then
    some ("row count check failed: row count difference exceeds threshold: " ++ fmtF2 d ++
      "% (threshold: " ++ fmtF2 5 ++ "%), original=" ++ toString originalCount ++
      ", new=" ++ toString newCount)
  else none

/-! ## Orchestrator operations with an explicit effect trace

Database and subprocess interactions are supplied by a `DbOracle` recording
what each call would return; every observable call the orchestrator issues is
appended to an effect trace in program order.  The execution-time monitor is a
background task racing a timer against the blocking rename; which side wins is
a scheduling fact outside the program, so it enters the model as the explicit
`SwapRaceOutcome` parameter, and the single `select` in the goroutine body
yields at most the one warning modelled here. -/

/-- Observable calls issued by the orchestrator. -/
inductive DbEffect
  | hasOtherActiveConnections
  | tableExists (name : String)
  | getRowCountForSwap (name : String)
  | analyzeTable (name : String)
  | setSessionConfig (lockWaitTimeout innodbLockWaitTimeout : Int)
  | executeAlter (sql : String)
  | getBufferPoolSizeMB (dbName tableName : String)
  | ptArchiverPurge (tableName : String)
  | monitorStarted (thresholdSeconds : Int)
  | monitorWarning (message : String)
  | duplicateWarning (message : String)
deriving DecidableEq

/-- Predetermined answers of the database client and the pt-archiver
subprocess for one orchestrator call sequence. -/
structure DbOracle where
  hasOtherActiveConnections : Except String (Bool × String)
  tableExists : String → Except String Bool
  rowCountForSwap : String → Except String Int
  setSessionConfig : Except String Unit
  executeAlter : String → Option DbError
  bufferPoolSizeMB : String → String → Except String ℚ
  ptArchiverPurge : Except String Unit

/-- The configuration fields the modelled operations read. -/
structure ManagerConfig where
  ptOscThreshold : Int
  executionTimeThresholdSeconds : Int
  connectionCheckEnabled : Bool
  disableAnalyzeTable : Bool
  lockWaitTimeout : Int
  innodbLockWaitTimeout : Int
  ptArchiverEnabled : Bool
  bufferPoolSizeThresholdMB : ℚ
  dsn : String

/-- Which side of the execution-time race finished first. -/
inductive SwapRaceOutcome
  | timerFired
  | renameFinishedFirst
deriving DecidableEq

/-- Model of `Manager.executeQuery`: dry-run returns before touching the
client; duplicate errors are downgraded to a warning and a `nil` return. -/
def executeQueryRun (dryRun : Bool) (taskName : String) (q : QueryInfo)
    (execResult : Option DbError) : Except String Unit × List DbEffect :=
  if dryRun then (.ok (), [])
  else
    match execResult with
    | none => (.ok (), [.executeAlter q.query])
    | some err =>
      if IsDuplicateError err then
        (.ok (), [.executeAlter q.query,
          .duplicateWarning ("Duplicate detected in " ++ taskName ++ ": " ++ err.render ++
            " (query: " ++ q.query ++ ")")])
      else (.error err.render, [.executeAlter q.query])

/-- Model of `Manager.extractDatabaseNameFromDSN`. -/
def extractDatabaseNameFromDSN (dsn : String) : Except String String :=
  let parts := goSplit dsn "/"
  if parts.length < 2 then .error ("invalid DSN format: " ++ dsn)
  else
    let dbPart0 := parts.getLastD ""
    let dbPart := if strContains dbPart0 "?" then (goSplit dbPart0 "?").headD "" else dbPart0
    if dbPart = "" then .error ("database name not found in DSN: " ++ dsn) else .ok dbPart

/-- Model of `Manager.checkOtherActiveConnections`. -/
def checkOtherActiveConnections (cfg : ManagerConfig) (db : DbOracle) :
    Except String Unit × List DbEffect :=
  if !cfg.connectionCheckEnabled then (.ok (), [])
  else
    match db.hasOtherActiveConnections with
    | .error e => (.error ("failed to check active connections: " ++ e),
        [.hasOtherActiveConnections])
    | .ok (hasOthers, username) =>
      if hasOthers then
        (.error ("detected other active connections for user '" ++ username ++
          "', stopping execution for safety"), [.hasOtherActiveConnections])
      else (.ok (), [.hasOtherActiveConnections])

/-- Model of `Manager.checkRowCountDifference`: exact swap row counts of the
original and replacement table, then the 5% parity comparison. -/
def checkRowCountDifferenceM (db : DbOracle) (tableName : String) :
    Except String Unit × List DbEffect :=
  match db.rowCountForSwap tableName with
  | .error e => (.error ("failed to get original table row count: " ++ e),
      [.getRowCountForSwap tableName])
  | .ok originalCount =>
    let newName := "_" ++ tableName ++ "_new"
    match db.rowCountForSwap newName with
    | .error e => (.error ("failed to get new table row count: " ++ e),
        [.getRowCountForSwap tableName, .getRowCountForSwap newName])
    | .ok newCount =>
      match rowCountCheckError originalCount newCount with
      | some msg => (.error msg, [.getRowCountForSwap tableName, .getRowCountForSwap newName])
      | none => (.ok (), [.getRowCountForSwap tableName, .getRowCountForSwap newName])

/-- The checks of `Manager.SwapTable` up to and including the session
configuration: connection check, existence of both tables, row-count parity,
best-effort ANALYZE of the replacement (skipped in dry-run), session
timeouts. -/
def preSwapChecks (cfg : ManagerConfig) (db : DbOracle) (dryRun : Bool)
    (tableName : String) : Except String Unit × List DbEffect :=
  match checkOtherActiveConnections cfg db with
  | (.error e, effs) => (.error e, effs)
  | (.ok _, effs0) =>
    match db.tableExists tableName with
    | .error e => (.error ("failed to check original table existence: " ++ e),
        effs0 ++ [.tableExists tableName])
    | .ok origExists =>
      let effs1 := effs0 ++ [.tableExists tableName]
      if !origExists then
        (.error ("original table " ++ tableName ++ " does not exist"), effs1)
      else
        let newTableName := "_" ++ tableName ++ "_new"
        match db.tableExists newTableName with
        | .error e => (.error ("failed to check new table existence: " ++ e),
            effs1 ++ [.tableExists newTableName])
        | .ok newExists =>
          let effs2 := effs1 ++ [.tableExists newTableName]
          if !newExists then
            (.error ("new table " ++ newTableName ++ " does not exist"), effs2)
          else
            match checkRowCountDifferenceM db tableName with
            | (.error e, effsR) => (.error e, effs2 ++ effsR)
            | (.ok _, effsR) =>
              let effs3 := effs2 ++ effsR
              let effs4 :=
                if !cfg.disableAnalyzeTable && !dryRun then effs3 ++ [.analyzeTable newTableName]
                else effs3
              match db.setSessionConfig with
              | .error e => (.error ("failed to set session config: " ++ e),
                  effs4 ++ [.setSessionConfig cfg.lockWaitTimeout cfg.innodbLockWaitTimeout])
              | .ok _ =>
                (.ok (), effs4 ++ [.setSessionConfig cfg.lockWaitTimeout cfg.innodbLockWaitTimeout])

/-- The rename statement issued by `Manager.SwapTable`. -/
def swapSQLFor (tableName : String) : String :=
  "RENAME TABLE " ++ tableName ++ " TO " ++ tableName ++ "_old, _" ++
    tableName ++ "_new TO " ++ tableName

/-- Effects of starting the execution-time monitor: one background timer task
iff the configured threshold is positive (the `go` statement is inside
`if thresholdSeconds > 0`). -/
def monitorStartEffects (cfg : ManagerConfig) : List DbEffect :=
  if cfg.executionTimeThresholdSeconds > 0 then
    [DbEffect.monitorStarted cfg.executionTimeThresholdSeconds]
  else []

/-- Warning effects of the monitor task: its single `select` either sees the
timer fire first and emits exactly one warning, or sees the cancellation
first and emits nothing; without a started monitor there is nothing at
all. -/
def monitorWarnEffects (cfg : ManagerConfig) (taskName quotedQuery : String)
    (race : SwapRaceOutcome) : List DbEffect :=
  if cfg.executionTimeThresholdSeconds > 0 then
    match race with
    | .timerFired =>
      [DbEffect.monitorWarning ("Long execution time detected in " ++ taskName ++
        ": operation is taking longer than " ++
        toString cfg.executionTimeThresholdSeconds ++ " seconds for query: " ++
        quotedQuery)]
    | .renameFinishedFirst => []
  else []

/-- Model of `Manager.SwapTable`: the pre-swap checks, the dry-run early
return, the execution-time monitor gated on a positive threshold, and the
blocking rename.  The monitor never aborts the rename; it contributes at most
one warning, decided by the race outcome. -/
def SwapTable (cfg : ManagerConfig) (db : DbOracle) (dryRun : Bool)
    (race : SwapRaceOutcome) (tableName : String) : Except String Unit × List DbEffect :=
  let taskName := if dryRun then "swap (DRY RUN)" else "swap"
  match preSwapChecks cfg db dryRun tableName with
  | (.error e, effs) => (.error e, effs)
  | (.ok _, effs) =>
    if dryRun then (.ok (), effs)
    else
      let swapSQL := swapSQLFor tableName
      let quotedQuery := "`" ++ goReplaceAll swapSQL "`" "" ++ "`"
      let monStart := monitorStartEffects cfg
      let monWarn := monitorWarnEffects cfg taskName quotedQuery race
      match db.executeAlter swapSQL with
      | some err => (.error ("table swap failed: " ++ err.render),
          effs ++ monStart ++ [.executeAlter swapSQL] ++ monWarn)
      | none => (.ok (), effs ++ monStart ++ [.executeAlter swapSQL] ++ monWarn)

/-- Model of `Manager.CleanupOldTable`: optional pt-archiver purge, optional
buffer-pool residency check, dry-run early return, then the DROP. -/
def CleanupOldTable (cfg : ManagerConfig) (db : DbOracle) (dryRun : Bool)
    (tableName : String) : Except String Unit × List DbEffect :=
  let oldTableName := tableName ++ "_old"
  let purgeStep : Except String Unit × List DbEffect :=
    if cfg.ptArchiverEnabled then
      match db.ptArchiverPurge with
      | .error e =>
        (.error ("failed to purge old table before cleanup: pt-archiver failed: " ++ e),
          [.ptArchiverPurge oldTableName])
      | .ok _ => (.ok (), [.ptArchiverPurge oldTableName])
    else (.ok (), [])
  match purgeStep with
  | (.error e, effsP) => (.error e, effsP)
  | (.ok _, effsP) =>
    let bufferStep : Except String Unit × List DbEffect :=
      if cfg.bufferPoolSizeThresholdMB > 0 then
        match extractDatabaseNameFromDSN cfg.dsn with
        | .error e => (.error ("failed to extract database name from DSN: " ++ e), [])
        | .ok dbName =>
          match db.bufferPoolSizeMB dbName oldTableName with
          | .error _ => (.ok (), [.getBufferPoolSizeMB dbName oldTableName])
          | .ok size =>
            if size > cfg.bufferPoolSizeThresholdMB then
              (.error ("buffer pool size check failed: buffer pool size (" ++ fmtF2 size ++
                " MB) exceeds threshold (" ++ fmtF2 cfg.bufferPoolSizeThresholdMB ++
                " MB) for table " ++ oldTableName), [.getBufferPoolSizeMB dbName oldTableName])
            else (.ok (), [.getBufferPoolSizeMB dbName oldTableName])
      else (.ok (), [])
    match bufferStep with
    | (.error e, effsB) => (.error e, effsP ++ effsB)
    | (.ok _, effsB) =>
      let dropSQL := "DROP TABLE IF EXISTS " ++ tableName ++ "_old"
      if dryRun then (.ok (), effsP ++ effsB)
      else
        match db.executeAlter dropSQL with
        | some err => (.error ("failed to drop backup table: " ++ err.render),
            effsP ++ effsB ++ [.executeAlter dropSQL])
        | none => (.ok (), effsP ++ effsB ++ [.executeAlter dropSQL])

/-- Model of `Manager.CleanupTriggers`: drops the three convention-named
triggers, skipping every drop in dry-run, and aggregates individual failures
into one error after the loop. -/
def CleanupTriggers (cfg : ManagerConfig) (db : DbOracle) (dryRun : Bool)
    (tableName : String) : Except String Unit × List DbEffect :=
  match extractDatabaseNameFromDSN cfg.dsn with
  | .error e => (.error ("failed to extract database name from DSN: " ++ e), [])
  | .ok dbName =>
    let triggers := ["pt_osc_" ++ dbName ++ "_" ++ tableName ++ "_del",
      "pt_osc_" ++ dbName ++ "_" ++ tableName ++ "_upd",
      "pt_osc_" ++ dbName ++ "_" ++ tableName ++ "_ins"]
    if dryRun then (.ok (), [])
    else
      let results := triggers.map (fun trigger =>
        db.executeAlter ("DROP TRIGGER IF EXISTS " ++ trigger))
      let effs := triggers.map (fun trigger =>
        DbEffect.executeAlter ("DROP TRIGGER IF EXISTS " ++ trigger))
      if results.any (fun r => r.isSome) then (.error "some triggers failed to drop", effs)
      else (.ok (), effs)

/-- Recognizes the mutating-SQL effect. -/
def isExecuteAlterEff : DbEffect → Bool
  | .executeAlter _ => true
  | _ => false

/-- Recognizes the monitor-start effect. -/
def isMonitorStartEff : DbEffect → Bool
  | .monitorStarted _ => true
  | _ => false

/-- Recognizes the monitor-warning effect. -/
def isMonitorWarnEff : DbEffect → Bool
  | .monitorWarning _ => true
  | _ => false

/-- Number of monitor tasks started in a trace. -/
def countMonitorStarted (effs : List DbEffect) : Nat :=
  (effs.filter isMonitorStartEff).length

/-- Number of monitor warnings emitted in a trace. -/
def countMonitorWarning (effs : List DbEffect) : Nat :=
  (effs.filter isMonitorWarnEff).length

/-- An effect admissible in the pre-swap phase: not a mutating SQL call and
not a monitor effect. -/
def swapSafeEff (e : DbEffect) : Bool :=
  !isExecuteAlterEff e && !isMonitorStartEff e && !isMonitorWarnEff e

/-! ## Claim theorems -/

/-- C1: for every table group with at least one ALTER fragment whose row count
resolves successfully to `r` under threshold `t`, `r ≤ t` routes to the
direct-ALTER path and `r > t` to the pt-online-schema-change path; the
boundary `r = t` routes direct. -/
theorem routing_threshold_C1 (tableName : String) (alterParts : List String)
    (r t : Int) (hne : alterParts ≠ []) :
    (executeTableGroupPlan tableName alterParts (.ok r) t
        = .direct (directAlterStatements tableName alterParts) ↔ r ≤ t)
  ∧ (executeTableGroupPlan tableName alterParts (.ok r) t
        = .onlineTool tableName (combinedAlterForPtOsc alterParts) ↔ t < r)
  ∧ executeTableGroupPlan tableName alterParts (.ok t) t
        = .direct (directAlterStatements tableName alterParts) := by
  have hne' : alterParts.isEmpty = false := by
    cases alterParts with
    | nil => exact absurd rfl hne
    | cons a as => rfl
  refine ⟨?_, ?_, ?_⟩
  · by_cases h : r ≤ t <;> simp [executeTableGroupPlan, hne', h]
  · by_cases h : r ≤ t
    · simp [executeTableGroupPlan, hne', h]
    · simp [executeTableGroupPlan, hne', h]
      omega
  · simp [executeTableGroupPlan, hne']

/-- Witness for C1 at the boundary row count. -/
theorem routing_threshold_C1_witness :
    executeTableGroupPlan "users" ["ADD COLUMN x INT"] (.ok 500) 500
      = .direct (directAlterStatements "users" ["ADD COLUMN x INT"]) :=
  (routing_threshold_C1 "users" ["ADD COLUMN x INT"] 500 500 (by decide)).2.2

/-- C2: the pt-osc subprocess verdict is success exactly when the process
exited cleanly and no output line matched the error-pattern set; an exit
status of zero with a line containing "Access denied" is a failure whose
message includes that line, and a failing exit status together with matched
lines aggregates both into the message. -/
theorem ptosc_verdict_C2 :
    (∀ (tableName : String) (run : Ptosc.ProcessRun),
        Ptosc.executeAlterVerdict tableName run = none ↔
          run.exitError = none ∧ Ptosc.detectedErrorLines run.outputLines = [])
  ∧ Ptosc.executeAlterVerdict "users"
      ⟨none, ["Copying approximately 1000 rows...",
              "ERROR 1045 (28000): Access denied for user"]⟩
      = some ("pt-online-schema-change detected errors for table users: " ++
          "ERROR 1045 (28000): Access denied for user")
  ∧ strContains ("pt-online-schema-change detected errors for table users: " ++
        "ERROR 1045 (28000): Access denied for user") "Access denied for user" = true
  ∧ Ptosc.executeAlterVerdict "users"
      ⟨some "exit status 1", ["error: something failed", "fatal: Access denied"]⟩
      = some ("pt-online-schema-change failed for table users: exit status 1 " ++
          "(detected errors: error: something failed; fatal: Access denied)") := by
  refine ⟨?_, by decide, by decide, by decide⟩
  intro tableName run
  unfold Ptosc.executeAlterVerdict
  cases h : run.exitError with
  | some e =>
    simp only [h]
    split <;> simp
  | none =>
    cases hm : Ptosc.detectedErrorLines run.outputLines with
    | nil => simp [hm]
    | cons a as => simp [hm]

/-- C6: when the first approximate tier that succeeds reports exactly zero
rows, the resolver returns the exact COUNT(*) reading instead (or fails if
that exact count fails), even though the approximate tier succeeded. -/
theorem zero_count_reverify_C6 (table : String) (tierA tierB tierC exact : RowQuery)
    (h : firstApproxTier tierA tierB tierC = .ok 0) :
    GetTableRowCount table tierA tierB tierC exact =
      match exact with
      | .ok actual => .ok actual
      | .error e =>
        .error ("failed to verify table row count with COUNT(*) for " ++ table ++ ": " ++ e) := by
  unfold firstApproxTier at h
  unfold GetTableRowCount
  cases tierA with
  | ok c =>
    simp at h
    subst h
    cases exact <;> simp [verifyZeroCount]
  | error eA =>
    cases tierB with
    | ok c =>
      simp at h
      subst h
      cases exact <;> simp [verifyZeroCount]
    | error eB =>
      cases tierC with
      | ok c =>
        simp at h
        subst h
        cases exact <;> simp [verifyZeroCount]
      | error eC => simp at h

/-- Witness for C6: tier A succeeds with zero, the exact count says 42. -/
theorem zero_count_reverify_C6_witness :
    GetTableRowCount "users" (.ok 0) (.error "tier B unavailable")
      (.error "tier C unavailable") (.ok 42) = .ok 42 :=
  zero_count_reverify_C6 "users" (.ok 0) (.error "tier B unavailable")
    (.error "tier C unavailable") (.ok 42) (by decide)

/-- C7: a direct SQL execution failing with MySQL error 1062, 1061 or 1050 is
downgraded by `executeQuery` to a warning and a nil return, so re-running the
same already-applied statement any number of times never aborts the run. -/
theorem duplicate_error_warning_C7 (number : Nat) (message taskName : String)
    (q : QueryInfo) (h : number = 1062 ∨ number = 1061 ∨ number = 1050) :
    (executeQueryRun false taskName q (some (.mysqlError number message))).1 = .ok ()
  ∧ (executeQueryRun false taskName q (some (.mysqlError number message))).2 =
      [.executeAlter q.query,
       .duplicateWarning ("Duplicate detected in " ++ taskName ++ ": " ++
         DbError.render (.mysqlError number message) ++ " (query: " ++ q.query ++ ")")]
  ∧ ∀ k : Nat,
      (List.replicate k (executeQueryRun false taskName q
        (some (.mysqlError number message)))).all
        (fun r => decide (r.1 = Except.ok ())) = true := by
  have hd : IsDuplicateError (.mysqlError number message) = true := by
    rcases h with h | h | h <;> simp [IsDuplicateError, h]
  refine ⟨?_, ?_, ?_⟩
  · simp [executeQueryRun, hd]
  · simp [executeQueryRun, hd]
  · intro k
    simp only [List.all_eq_true]
    intro r hr
    rw [List.eq_of_mem_replicate hr]
    simp [executeQueryRun, hd]

/-- Witness for C7 at error number 1062. -/
theorem duplicate_error_warning_C7_witness :
    (executeQueryRun false "alter-table"
      ⟨"ALTER TABLE users ADD COLUMN x INT", "ALTER", "users"⟩
      (some (.mysqlError 1062 "Duplicate entry"))).1 = .ok () :=
  (duplicate_error_warning_C7 1062 "Duplicate entry" "alter-table"
    ⟨"ALTER TABLE users ADD COLUMN x INT", "ALTER", "users"⟩ (Or.inl rfl)).1

/-- Membership survives a conditional append on the right. -/
theorem mem_if_append {α : Type} {a : α} {l tail : List α} (c : Prop) [Decidable c]
    (h : a ∈ l) : a ∈ (if c then l ++ tail else l) := by
  split
  · exact List.mem_append_left _ h
  · exact h

/-- Membership survives an append on the right in both branches of a
conditional. -/
theorem mem_if_append2 {α : Type} {a : α} {l t1 t2 : List α} (c : Prop) [Decidable c]
    (h : a ∈ l) : a ∈ (if c then l ++ t1 else l ++ t2) := by
  split
  · exact List.mem_append_left _ h
  · exact List.mem_append_left _ h

/-- C3 counterexample: the pt-archiver argument builder places the password on
the command line as `--password=...`, so the argument list does contain the
password. -/
theorem password_in_args_C3_counterexample :
    Ptarchiver.buildArgsWithPassword "t1"
      ⟨true, "", 0, false, 0, 0, false, false, false, false⟩
      "user:secretpw@tcp(localhost:3306)/testdb" false =
      .ok (["--source=h=localhost,P=3306,D=testdb,t=t1", "--user=user",
        "--password=secretpw", "--where=1=1", "--purge"], "secretpw")
  ∧ "--password=secretpw" ∈ ["--source=h=localhost,P=3306,D=testdb,t=t1", "--user=user",
        "--password=secretpw", "--where=1=1", "--purge"]
  ∧ strContains "--password=secretpw" "secretpw" = true := by
  refine ⟨by decide, by decide, by decide⟩

/-- C3 amended: the pt-osc builder keeps the password out of the argument
list — the list is unchanged under any substitution of the password that
preserves its presence, the connection specifier is built from host, port,
database, table and user only, `--ask-pass` appears exactly when a password
exists, and the password is returned separately for standard input.  The
pt-archiver builder instead passes `--password=<password>` as an argument
(see the counterexample). -/
theorem ptosc_password_isolation_C3 (conn : ConnInfo) (pw tableName alter : String)
    (cfg : PtOscConfig) (forceDryRun : Bool)
    (hpw : pw ≠ "" ↔ conn.password ≠ "") :
    Ptosc.argsFromConn { conn with password := pw } tableName alter cfg forceDryRun
      = Ptosc.argsFromConn conn tableName alter cfg forceDryRun
  ∧ (conn.password ≠ "" →
      "--ask-pass" ∈ Ptosc.argsFromConn conn tableName alter cfg forceDryRun)
  ∧ ("h=" ++ conn.host ++ ",P=" ++ conn.port ++ ",D=" ++ conn.database ++
      ",t=" ++ tableName ++ ",u=" ++ conn.user) ∈
        Ptosc.argsFromConn conn tableName alter cfg forceDryRun
  ∧ ∀ dsn c, Ptosc.parseDSN dsn = .ok c →
      Ptosc.buildArgsWithPassword tableName alter cfg dsn forceDryRun
        = .ok (Ptosc.argsFromConn c tableName alter cfg forceDryRun, c.password) := by
  have mem_flagTail : ∀ (a : String) (args : List String) (dsn : String),
      a ∈ args → a ∈ Ptosc.flagTail cfg forceDryRun dsn args := by
    intro a args dsn h
    unfold Ptosc.flagTail
    apply List.mem_append_left
    apply mem_if_append2
    apply mem_if_append
    apply mem_if_append
    apply mem_if_append
    apply mem_if_append
    apply mem_if_append
    apply mem_if_append
    apply mem_if_append
    exact h
  refine ⟨?_, ?_, ?_, ?_⟩
  · by_cases h : conn.password = ""
    · have hp : pw = "" := by
        by_contra hc
        exact (hpw.mp hc) h
      simp only [Ptosc.argsFromConn, h, hp]
    · have hp : ¬ pw = "" := hpw.mpr h
      simp only [Ptosc.argsFromConn]
      rw [if_pos hp, if_pos h]
  · intro h
    simp only [Ptosc.argsFromConn]
    apply mem_flagTail
    rw [if_pos h]
    exact List.mem_append_right _ (by simp)
  · simp only [Ptosc.argsFromConn, Ptosc.flagTail]
    exact List.mem_append_right _ (by simp)
  · intro dsn c hc
    simp [Ptosc.buildArgsWithPassword, hc]

/-- Witness for C3: two builds differing only in the password value produce
the same argument list. -/
theorem ptosc_password_isolation_C3_witness :
    Ptosc.argsFromConn ⟨"localhost", "3306", "testdb", "user", "pw2"⟩ "t1"
      "ADD COLUMN x INT" ⟨"", "", false, 0, 0, false, false, false, false, false⟩ false
      = Ptosc.argsFromConn ⟨"localhost", "3306", "testdb", "user", "pw1"⟩ "t1"
        "ADD COLUMN x INT" ⟨"", "", false, 0, 0, false, false, false, false, false⟩ false :=
  (ptosc_password_isolation_C3 ⟨"localhost", "3306", "testdb", "user", "pw1"⟩ "pw2"
    "t1" "ADD COLUMN x INT" ⟨"", "", false, 0, 0, false, false, false, false, false⟩
    false (by decide)).1

/-- C4 counterexample: on the below-threshold path the batch of the scenario
is executed as two separate ALTER statements (plus the CREATE), not as the
single compound statement the claim requires. -/
theorem compound_alter_C4_counterexample :
    (parseQueries ["CREATE TABLE t (id INT)", "ALTER TABLE users ADD COLUMN x INT",
        "ALTER TABLE users DROP COLUMN y"]).map groupQueriesByTable =
      .ok [⟨"t", [], [⟨"CREATE TABLE t (id INT)", "CREATE", "t"⟩]⟩,
           ⟨"users", ["ADD COLUMN x INT", "DROP COLUMN y"], []⟩]
  ∧ executeTableGroupPlan "users" ["ADD COLUMN x INT", "DROP COLUMN y"] (.ok 100) 1000
      = .direct ["ALTER TABLE users ADD COLUMN x INT", "ALTER TABLE users DROP COLUMN y"]
  ∧ executeTableGroupPlan "users" ["ADD COLUMN x INT", "DROP COLUMN y"] (.ok 100) 1000
      ≠ .direct ["ALTER TABLE users ADD COLUMN x INT, DROP COLUMN y"] := by
  refine ⟨by decide, by decide, by decide⟩

/-- C4 amended: the two ALTER fragments against `users` are merged into one
group covered by a single row-count decision; the comma-joined compound
statement is what the notification carries and what a pt-osc invocation would
receive, while the below-threshold direct path executes each fragment as its
own ALTER statement. -/
theorem compound_alter_C4_amended :
    (parseQueries ["CREATE TABLE t (id INT)", "ALTER TABLE users ADD COLUMN x INT",
        "ALTER TABLE users DROP COLUMN y"]).map groupQueriesByTable =
      .ok [⟨"t", [], [⟨"CREATE TABLE t (id INT)", "CREATE", "t"⟩]⟩,
           ⟨"users", ["ADD COLUMN x INT", "DROP COLUMN y"], []⟩]
  ∧ combinedAlterNotification "users" ["ADD COLUMN x INT", "DROP COLUMN y"]
      = "`ALTER TABLE users ADD COLUMN x INT, DROP COLUMN y`"
  ∧ combinedAlterForPtOsc ["ADD COLUMN x INT", "DROP COLUMN y"]
      = "ADD COLUMN x INT, DROP COLUMN y"
  ∧ executeTableGroupPlan "users" ["ADD COLUMN x INT", "DROP COLUMN y"] (.ok 100) 1000
      = .direct ["ALTER TABLE users ADD COLUMN x INT", "ALTER TABLE users DROP COLUMN y"]
  ∧ executeTableGroupPlan "t" [] (.ok 100) 1000 = .noAlter := by
  refine ⟨by decide, by decide, by decide, by decide, by decide⟩

/-- C5 counterexample: for original=1000 and replacement=940 the computed
percentage is exactly 6.0 (denominator 1000, the larger count), not the
claimed "about 6.38" (which would need the smaller count 940 as denominator);
the scenario verdicts themselves (950 passes, 940 fails) do hold. -/
theorem swap_parity_C5_counterexample :
    diffPercent 1000 940 = 6
  ∧ diffPercent 1000 940 ≠ 319 / 50
  ∧ rowCountCheckError 1000 940 ≠ none
  ∧ rowCountCheckError 1000 950 = none := by
  have h6 : diffPercent 1000 940 = 6 := by
    unfold diffPercent
    rw [if_pos (by norm_num), if_pos (by norm_num)]
    norm_num
  have h5 : diffPercent 1000 950 = 5 := by
    unfold diffPercent
    rw [if_pos (by norm_num), if_pos (by norm_num)]
    norm_num
  refine ⟨h6, ?_, ?_, ?_⟩
  · rw [h6]; norm_num
  · unfold rowCountCheckError
    simp only [h6]
    rw [if_pos (by norm_num)]
    simp
  · unfold rowCountCheckError
    simp only [h5]
    rw [if_neg (by norm_num)]

/-- C5 amended: the parity check fails exactly when the percentage difference
strictly exceeds the fixed 5% tolerance, the percentage is computed relative
to the larger of the two counts, 1000 vs 950 (exactly 5.0%) passes, and 1000
vs 940 (exactly 6.0%) fails. -/
theorem swap_parity_C5_amended (originalCount newCount : Int) :
    (rowCountCheckError originalCount newCount = none ↔
        diffPercent originalCount newCount ≤ 5)
  ∧ (originalCount ≥ newCount → 0 < originalCount →
      diffPercent originalCount newCount =
        ((originalCount : ℚ) - (newCount : ℚ)) / (originalCount : ℚ) * 100)
  ∧ (originalCount < newCount →
      diffPercent originalCount newCount =
        ((newCount : ℚ) - (originalCount : ℚ)) / (newCount : ℚ) * 100)
  ∧ diffPercent 1000 950 = 5
  ∧ rowCountCheckError 1000 950 = none
  ∧ diffPercent 1000 940 = 6
  ∧ rowCountCheckError 1000 940 ≠ none := by
  have h6 : diffPercent 1000 940 = 6 := by
    unfold diffPercent
    rw [if_pos (by norm_num), if_pos (by norm_num)]
    norm_num
  have h5 : diffPercent 1000 950 = 5 := by
    unfold diffPercent
    rw [if_pos (by norm_num), if_pos (by norm_num)]
    norm_num
  refine ⟨?_, ?_, ?_, h5, ?_, h6, ?_⟩
  · by_cases hd : diffPercent originalCount newCount > 5
    · unfold rowCountCheckError
      rw [if_pos hd]
      exact iff_of_false (by simp) (by linarith)
    · unfold rowCountCheckError
      rw [if_neg hd]
      exact iff_of_true rfl (le_of_not_lt hd)
  · intro hge hpos
    unfold diffPercent
    rw [if_pos hge, if_pos hpos]
  · intro hlt
    unfold diffPercent
    rw [if_neg (not_le.mpr hlt)]
  · unfold rowCountCheckError
    simp only [h5]
    rw [if_neg (by norm_num)]
  · unfold rowCountCheckError
    simp only [h6]
    rw [if_pos (by norm_num)]
    simp

/-- Witness for C5 on the passing boundary pair. -/
theorem swap_parity_C5_witness :
    diffPercent 1000 950 =
      (((1000 : ℤ) : ℚ) - ((950 : ℤ) : ℚ)) / ((1000 : ℤ) : ℚ) * 100 :=
  (swap_parity_C5_amended 1000 950).2.1 (by decide) (by decide)

/-- The fuelled Go split never returns an empty chunk list. -/
theorem listSplitNE_ne_nil (s0 : Char) (srest : List Char) (fuel : Nat) (s : List Char) :
    listSplitNE s0 srest fuel s ≠ [] := by
  cases fuel with
  | zero => simp [listSplitNE]
  | succ k =>
    cases s with
    | nil => simp [listSplitNE]
    | cons c rest =>
      unfold listSplitNE
      split
      · simp
      · cases h : listSplitNE s0 srest k rest <;> simp [h]

/-- Head chunk of a single-character Go split: the maximal prefix free of the
separator. -/
theorem listSplitNE_head_single (c : Char) (fuel : Nat) (s : List Char)
    (hf : s.length ≤ fuel) :
    (listSplitNE c [] fuel s).headD [] = s.takeWhile (fun d => d ≠ c) := by
  induction fuel generalizing s with
  | zero =>
    cases s with
    | nil => simp [listSplitNE]
    | cons d rest => simp at hf
  | succ k ih =>
    cases s with
    | nil => simp [listSplitNE]
    | cons d rest =>
      unfold listSplitNE
      by_cases hdc : c = d
      · subst hdc
        rw [if_pos (by simp [listStartsWith])]
        simp [List.takeWhile]
      · have hdc2 : ¬d = c := fun hh => hdc hh.symm
        rw [if_neg (by simp [listStartsWith]; exact hdc)]
        have hne := listSplitNE_ne_nil c [] k rest
        cases h : listSplitNE c [] k rest with
        | nil => exact absurd h hne
        | cons hd tl =>
          have ihr := ih rest (by simpa using Nat.le_of_succ_le_succ (by simpa using hf))
          rw [h] at ihr
          simp only [List.headD_cons] at ihr
          simp [List.takeWhile, hdc2, ihr]

/-- No separator character occurs in the maximal separator-free prefix. -/
theorem takeWhile_ne_no_sub (c : Char) (s : List Char) :
    listContainsSub [c] (s.takeWhile (fun d => d ≠ c)) = false := by
  induction s with
  | nil => simp [listContainsSub]
  | cons d rest ih =>
    by_cases hdc : d = c
    · simp [List.takeWhile, hdc, listContainsSub]
    · have hcd : ¬c = d := fun hh => hdc hh.symm
      simp [List.takeWhile, hdc, listContainsSub, listStartsWith, hcd]
      simpa using ih

/-- Head of a Go split on "?" is free of question marks. -/
theorem goSplit_q_head_free (s : String) :
    strContains ((goSplit s "?").headD "") "?" = false := by
  have hsplit : goSplit s "?" =
      (listSplitNE '?' [] s.toList.length s.toList).map String.mk := rfl
  rw [hsplit]
  have hne := listSplitNE_ne_nil '?' [] s.toList.length s.toList
  have hh : (listSplitNE '?' [] s.toList.length s.toList).headD [] =
      s.toList.takeWhile (fun d => d ≠ '?') :=
    listSplitNE_head_single '?' s.toList.length s.toList (Nat.le_refl _)
  cases h : listSplitNE '?' [] s.toList.length s.toList with
  | nil => exact absurd h hne
  | cons hd tl =>
    rw [h] at hh
    simp only [List.headD_cons] at hh
    simp only [List.map_cons, List.headD_cons]
    have hrw : strContains (String.mk hd) "?" = listContainsSub ['?'] hd := rfl
    rw [hrw, hh]
    exact takeWhile_ne_no_sub '?' s.toList

/-- The database name returned by the pt-archiver host-section parser never
contains a question mark. -/
theorem ptarchiver_hostSection_q_free (hostPart u pw : String) (conn : ConnInfo)
    (h : Ptarchiver.parseHostSection hostPart u pw = .ok conn) :
    strContains conn.database "?" = false := by
  unfold Ptarchiver.parseHostSection at h
  by_cases hb : (!goStartsWith hostPart "(") = true
  · rw [if_pos hb] at h
    simp at h
  · rw [if_neg hb] at h
    rcases hsp : goSplit (String.mk (hostPart.toList.drop 1)) ")/" with _ | ⟨hostPort, rest1⟩
    · rw [hsp] at h; simp at h
    · rcases rest1 with _ | ⟨database0, rest2⟩
      · rw [hsp] at h; simp at h
      · rcases rest2 with _ | ⟨y, ys⟩
        · rw [hsp] at h
          simp only [] at h
          rcases hhp : goSplit hostPort ":" with _ | ⟨host, rest3⟩
          · rw [hhp] at h; simp at h
          · rcases rest3 with _ | ⟨port, rest4⟩
            · rw [hhp] at h; simp at h
            · rcases rest4 with _ | ⟨z, zs⟩
              · rw [hhp] at h
                simp only [] at h
                injection h with h2
                subst h2
                by_cases hq : strContains database0 "?" = true
                · show strContains
                    (if strContains database0 "?" then (goSplit database0 "?").headD ""
                     else database0) "?" = false
                  rw [if_pos hq]
                  exact goSplit_q_head_free database0
                · show strContains
                    (if strContains database0 "?" then (goSplit database0 "?").headD ""
                     else database0) "?" = false
                  rw [if_neg (by simpa using hq)]
                  simpa using hq
              · rw [hhp] at h; simp at h
        · rw [hsp] at h; simp at h

/-- The pt-archiver DSN parser returns a database name free of question
marks. -/
theorem ptarchiver_database_q_free (dsn : String) (conn : ConnInfo)
    (h : Ptarchiver.parseDSN dsn = .ok conn) :
    strContains conn.database "?" = false := by
  unfold Ptarchiver.parseDSN at h
  split at h
  · split at h
    · exact ptarchiver_hostSection_q_free _ _ _ _ h
    · exact ptarchiver_hostSection_q_free _ _ _ _ h
    · simp at h
  · simp at h

/-- C8 counterexample: the pt-osc ParseDSN does not strip query parameters —
the returned database name keeps the question mark and everything after
it. -/
theorem dsn_query_strip_C8_counterexample :
    Ptosc.parseDSN "user:pass@tcp(localhost:3306)/testdb?charset=utf8mb4"
      = .ok ⟨"localhost", "3306", "testdb?charset=utf8mb4", "user", "pass"⟩
  ∧ strContains "testdb?charset=utf8mb4" "?" = true := by
  refine ⟨by decide, by decide⟩

/-- C8 amended: query-parameter stripping holds for the pt-archiver ParseDSN
(whose database output never contains a question mark) but not for the pt-osc
ParseDSN, which returns the database segment verbatim. -/
theorem dsn_query_strip_C8_amended :
    (∀ dsn conn, Ptarchiver.parseDSN dsn = .ok conn →
        strContains conn.database "?" = false)
  ∧ Ptarchiver.parseDSN "user:pass@tcp(localhost:3306)/testdb?charset=utf8mb4"
      = .ok ⟨"localhost", "3306", "testdb", "user", "pass"⟩
  ∧ Ptosc.parseDSN "user:pass@tcp(localhost:3306)/testdb?charset=utf8mb4"
      = .ok ⟨"localhost", "3306", "testdb?charset=utf8mb4", "user", "pass"⟩ := by
  refine ⟨ptarchiver_database_q_free, by decide, by decide⟩

/-- Witness for C8 on a DSN carrying query parameters. -/
theorem dsn_query_strip_C8_witness :
    strContains "testdb" "?" = false :=
  dsn_query_strip_C8_amended.1 "user:pass@tcp(localhost:3306)/testdb?charset=utf8mb4"
    ⟨"localhost", "3306", "testdb", "user", "pass"⟩ (by decide)

/-- Monitor-start counting distributes over appends. -/
theorem countMS_append (l1 l2 : List DbEffect) :
    countMonitorStarted (l1 ++ l2) = countMonitorStarted l1 + countMonitorStarted l2 := by
  simp [countMonitorStarted, List.filter_append]

/-- Monitor-warning counting distributes over appends. -/
theorem countMW_append (l1 l2 : List DbEffect) :
    countMonitorWarning (l1 ++ l2) = countMonitorWarning l1 + countMonitorWarning l2 := by
  simp [countMonitorWarning, List.filter_append]

/-- Filtering for an everywhere-false predicate keeps nothing. -/
theorem filter_len_zero_of_none (p : DbEffect → Bool) (l : List DbEffect)
    (hall : l.all (fun e => !p e) = true) : (l.filter p).length = 0 := by
  induction l with
  | nil => simp
  | cons e rest ih =>
    rw [List.all_cons, Bool.and_eq_true] at hall
    obtain ⟨he, hrest⟩ := hall
    simp only [Bool.not_eq_true'] at he
    simp [List.filter_cons, he, ih hrest]

/-- A swap-safe trace has no monitor effects and no mutating SQL. -/
theorem safe_trace_counts {l : List DbEffect} (h : l.all swapSafeEff = true) :
    countMonitorStarted l = 0 ∧ countMonitorWarning l = 0 ∧
    l.all (fun e => !isExecuteAlterEff e) = true := by
  rw [List.all_eq_true] at h
  have hs : l.all (fun e => !isMonitorStartEff e) = true := by
    rw [List.all_eq_true]
    intro e he
    have hsafe := h e he
    unfold swapSafeEff at hsafe
    rw [Bool.and_eq_true, Bool.and_eq_true] at hsafe
    exact hsafe.1.2
  have hw : l.all (fun e => !isMonitorWarnEff e) = true := by
    rw [List.all_eq_true]
    intro e he
    have hsafe := h e he
    unfold swapSafeEff at hsafe
    rw [Bool.and_eq_true, Bool.and_eq_true] at hsafe
    exact hsafe.2
  have ha : l.all (fun e => !isExecuteAlterEff e) = true := by
    rw [List.all_eq_true]
    intro e he
    have hsafe := h e he
    unfold swapSafeEff at hsafe
    rw [Bool.and_eq_true, Bool.and_eq_true] at hsafe
    exact hsafe.1.1
  exact ⟨filter_len_zero_of_none _ _ hs, filter_len_zero_of_none _ _ hw, ha⟩

/-- The connection check issues only its read query. -/
theorem checkOther_trace_safe (cfg : ManagerConfig) (db : DbOracle) :
    ((checkOtherActiveConnections cfg db).2).all swapSafeEff = true := by
  unfold checkOtherActiveConnections
  repeat' split
  all_goals simp [swapSafeEff, isExecuteAlterEff, isMonitorStartEff, isMonitorWarnEff]

/-- The parity check issues only its two read queries. -/
theorem checkRowDiff_trace_safe (db : DbOracle) (t : String) :
    ((checkRowCountDifferenceM db t).2).all swapSafeEff = true := by
  unfold checkRowCountDifferenceM
  cases db.rowCountForSwap t with
  | error e =>
    simp [swapSafeEff, isExecuteAlterEff, isMonitorStartEff, isMonitorWarnEff]
  | ok orig =>
    simp only []
    cases db.rowCountForSwap ("_" ++ t ++ "_new") with
    | error e =>
      simp [swapSafeEff, isExecuteAlterEff, isMonitorStartEff, isMonitorWarnEff]
    | ok newc =>
      simp only []
      cases rowCountCheckError orig newc with
      | none =>
        simp [swapSafeEff, isExecuteAlterEff, isMonitorStartEff, isMonitorWarnEff]
      | some m =>
        simp [swapSafeEff, isExecuteAlterEff, isMonitorStartEff, isMonitorWarnEff]

/-- The pre-swap checks issue neither mutating SQL nor monitor effects. -/
theorem preSwapChecks_trace_safe (cfg : ManagerConfig) (db : DbOracle) (dryRun : Bool)
    (t : String) :
    ((preSwapChecks cfg db dryRun t).2).all swapSafeEff = true := by
  unfold preSwapChecks
  cases hco : checkOtherActiveConnections cfg db with
  | mk res0 effs0 =>
  have h1 := checkOther_trace_safe cfg db
  rw [hco] at h1
  simp only [] at h1
  cases res0 with
  | error e => simpa using h1
  | ok u0 =>
  simp only []
  cases db.tableExists t with
  | error e =>
    simp [List.all_append, h1, swapSafeEff, isExecuteAlterEff, isMonitorStartEff,
      isMonitorWarnEff]
  | ok origExists =>
  simp only []
  cases origExists with
  | false =>
    simp [List.all_append, h1, swapSafeEff, isExecuteAlterEff, isMonitorStartEff,
      isMonitorWarnEff]
  | true =>
  simp only [Bool.not_true, Bool.false_eq_true, if_false]
  cases db.tableExists ("_" ++ t ++ "_new") with
  | error e =>
    simp [List.all_append, h1, swapSafeEff, isExecuteAlterEff, isMonitorStartEff,
      isMonitorWarnEff]
  | ok newExists =>
  simp only []
  cases newExists with
  | false =>
    simp [List.all_append, h1, swapSafeEff, isExecuteAlterEff, isMonitorStartEff,
      isMonitorWarnEff]
  | true =>
  simp only [Bool.not_true, Bool.false_eq_true, if_false]
  cases hcr : checkRowCountDifferenceM db t with
  | mk res1 effsR =>
  have h2 := checkRowDiff_trace_safe db t
  rw [hcr] at h2
  simp only [] at h2
  cases res1 with
  | error e =>
    simp [List.all_append, h1, h2, swapSafeEff, isExecuteAlterEff, isMonitorStartEff,
      isMonitorWarnEff]
  | ok u1 =>
  simp only []
  cases db.setSessionConfig with
  | error e =>
    by_cases han : (!cfg.disableAnalyzeTable && !dryRun) = true
    · rw [if_pos han]
      simp [List.all_append, h1, h2, swapSafeEff, isExecuteAlterEff, isMonitorStartEff,
        isMonitorWarnEff]
    · rw [if_neg han]
      simp [List.all_append, h1, h2, swapSafeEff, isExecuteAlterEff, isMonitorStartEff,
        isMonitorWarnEff]
  | ok u2 =>
    by_cases han : (!cfg.disableAnalyzeTable && !dryRun) = true
    · rw [if_pos han]
      simp [List.all_append, h1, h2, swapSafeEff, isExecuteAlterEff, isMonitorStartEff,
        isMonitorWarnEff]
    · rw [if_neg han]
      simp [List.all_append, h1, h2, swapSafeEff, isExecuteAlterEff, isMonitorStartEff,
        isMonitorWarnEff]

/-- A trace free of execute-alter effects contains no executed statement. -/
theorem not_mem_executeAlter_of_all {l : List DbEffect}
    (h : l.all (fun e => !isExecuteAlterEff e) = true) (sql : String) :
    DbEffect.executeAlter sql ∉ l := by
  rw [List.all_eq_true] at h
  intro hmem
  have hfalse := h _ hmem
  simp [isExecuteAlterEff] at hfalse

/-- Counts over the monitor-start effect list. -/
theorem monitorStartEffects_counts (cfg : ManagerConfig) :
    countMonitorStarted (monitorStartEffects cfg) =
      (if cfg.executionTimeThresholdSeconds > 0 then 1 else 0)
  ∧ countMonitorWarning (monitorStartEffects cfg) = 0 := by
  unfold monitorStartEffects
  by_cases hthr : cfg.executionTimeThresholdSeconds > 0
  · rw [if_pos hthr, if_pos hthr]
    simp [countMonitorStarted, countMonitorWarning, isMonitorStartEff, isMonitorWarnEff]
  · rw [if_neg hthr, if_neg hthr]
    simp [countMonitorStarted, countMonitorWarning]

/-- Counts over the monitor-warning effect list. -/
theorem monitorWarnEffects_counts (cfg : ManagerConfig) (taskName quotedQuery : String)
    (race : SwapRaceOutcome) :
    countMonitorStarted (monitorWarnEffects cfg taskName quotedQuery race) = 0
  ∧ countMonitorWarning (monitorWarnEffects cfg taskName quotedQuery race) =
      (if cfg.executionTimeThresholdSeconds > 0 ∧ race = SwapRaceOutcome.timerFired
       then 1 else 0) := by
  unfold monitorWarnEffects
  by_cases hthr : cfg.executionTimeThresholdSeconds > 0
  · rw [if_pos hthr]
    cases race <;>
      simp [countMonitorStarted, countMonitorWarning, isMonitorStartEff, isMonitorWarnEff, hthr]
  · rw [if_neg hthr]
    cases race <;> simp [countMonitorStarted, countMonitorWarning, hthr]

/-- Monitor bookkeeping of the rename phase: the trace is the safe pre-swap
prefix, the optional monitor start, the rename statement, and the optional
warning. -/
theorem swapTail_monitor (cfg : ManagerConfig) (race : SwapRaceOutcome)
    (effs : List DbEffect) (tn qq sql : String)
    (hs0 : countMonitorStarted effs = 0) (hw0 : countMonitorWarning effs = 0) :
    (cfg.executionTimeThresholdSeconds ≤ 0 →
        countMonitorStarted (effs ++ monitorStartEffects cfg ++
          [DbEffect.executeAlter sql] ++ monitorWarnEffects cfg tn qq race) = 0
      ∧ countMonitorWarning (effs ++ monitorStartEffects cfg ++
          [DbEffect.executeAlter sql] ++ monitorWarnEffects cfg tn qq race) = 0)
  ∧ (0 < cfg.executionTimeThresholdSeconds →
        countMonitorStarted (effs ++ monitorStartEffects cfg ++
          [DbEffect.executeAlter sql] ++ monitorWarnEffects cfg tn qq race) ≤ 1
      ∧ (countMonitorStarted (effs ++ monitorStartEffects cfg ++
            [DbEffect.executeAlter sql] ++ monitorWarnEffects cfg tn qq race) = 1 ↔
          DbEffect.executeAlter sql ∈ (effs ++ monitorStartEffects cfg ++
            [DbEffect.executeAlter sql] ++ monitorWarnEffects cfg tn qq race))
      ∧ countMonitorWarning (effs ++ monitorStartEffects cfg ++
            [DbEffect.executeAlter sql] ++ monitorWarnEffects cfg tn qq race) =
          (if countMonitorStarted (effs ++ monitorStartEffects cfg ++
              [DbEffect.executeAlter sql] ++ monitorWarnEffects cfg tn qq race) = 1
            ∧ race = SwapRaceOutcome.timerFired then 1 else 0)) := by
  have hms := monitorStartEffects_counts cfg
  have hmw := monitorWarnEffects_counts cfg tn qq race
  have hsT : countMonitorStarted (effs ++ monitorStartEffects cfg ++
      [DbEffect.executeAlter sql] ++ monitorWarnEffects cfg tn qq race) =
      (if cfg.executionTimeThresholdSeconds > 0 then 1 else 0) := by
    rw [countMS_append, countMS_append, countMS_append, hs0, hms.1, hmw.1]
    simp [countMonitorStarted, isMonitorStartEff]
  have hwT : countMonitorWarning (effs ++ monitorStartEffects cfg ++
      [DbEffect.executeAlter sql] ++ monitorWarnEffects cfg tn qq race) =
      (if cfg.executionTimeThresholdSeconds > 0 ∧ race = SwapRaceOutcome.timerFired
       then 1 else 0) := by
    rw [countMW_append, countMW_append, countMW_append, hw0, hms.2, hmw.2]
    simp [countMonitorWarning, isMonitorWarnEff]
  have hmem : DbEffect.executeAlter sql ∈ (effs ++ monitorStartEffects cfg ++
      [DbEffect.executeAlter sql] ++ monitorWarnEffects cfg tn qq race) :=
    List.mem_append_left _ (List.mem_append_right _ (by simp))
  constructor
  · intro hle
    rw [hsT, hwT]
    constructor
    · rw [if_neg (by omega)]
    · rw [if_neg (fun hc => absurd hc.1 (by omega))]
  · intro hthr
    rw [hsT, hwT]
    refine ⟨?_, ?_, ?_⟩
    · rw [if_pos hthr]
    · rw [if_pos hthr]
      exact iff_of_true rfl hmem
    · rw [if_pos hthr]
      cases race <;> simp [hthr]

/-- C9: the execution-time monitor never starts for a non-positive threshold;
for a positive threshold exactly one monitor task starts exactly when the
blocking rename is reached, it emits exactly one warning when the timer fires
before the rename completes, and nothing when the rename finishes first (the
warning never aborts the rename: the rename effect is in the trace either
way). -/
theorem swap_monitor_C9 (cfg : ManagerConfig) (db : DbOracle) (dryRun : Bool)
    (race : SwapRaceOutcome) (tableName : String) :
    (cfg.executionTimeThresholdSeconds ≤ 0 →
        countMonitorStarted (SwapTable cfg db dryRun race tableName).2 = 0
      ∧ countMonitorWarning (SwapTable cfg db dryRun race tableName).2 = 0)
  ∧ (0 < cfg.executionTimeThresholdSeconds →
        countMonitorStarted (SwapTable cfg db dryRun race tableName).2 ≤ 1
      ∧ (countMonitorStarted (SwapTable cfg db dryRun race tableName).2 = 1 ↔
          DbEffect.executeAlter (swapSQLFor tableName) ∈
            (SwapTable cfg db dryRun race tableName).2)
      ∧ countMonitorWarning (SwapTable cfg db dryRun race tableName).2 =
          (if countMonitorStarted (SwapTable cfg db dryRun race tableName).2 = 1
              ∧ race = SwapRaceOutcome.timerFired then 1 else 0)) := by
  have hsafe := preSwapChecks_trace_safe cfg db dryRun tableName
  obtain ⟨hs0, hw0, ha0⟩ := safe_trace_counts hsafe
  have base : ∀ l : List DbEffect, countMonitorStarted l = 0 →
      countMonitorWarning l = 0 → l.all (fun e => !isExecuteAlterEff e) = true →
      ((cfg.executionTimeThresholdSeconds ≤ 0 →
          countMonitorStarted l = 0 ∧ countMonitorWarning l = 0)
      ∧ (0 < cfg.executionTimeThresholdSeconds →
          countMonitorStarted l ≤ 1
        ∧ (countMonitorStarted l = 1 ↔
            DbEffect.executeAlter (swapSQLFor tableName) ∈ l)
        ∧ countMonitorWarning l =
            (if countMonitorStarted l = 1 ∧ race = SwapRaceOutcome.timerFired
             then 1 else 0))) := by
    intro l h1 h2 h3
    refine ⟨fun _ => ⟨h1, h2⟩, fun _ => ⟨by omega, ?_, ?_⟩⟩
    · rw [h1]
      constructor
      · intro h01
        exact absurd h01 (by decide)
      · intro hmem
        exact absurd hmem (not_mem_executeAlter_of_all h3 _)
    · rw [h2, h1]
      simp
  unfold SwapTable
  cases hpre : preSwapChecks cfg db dryRun tableName with
  | mk res effs =>
  rw [hpre] at hs0 hw0 ha0
  simp only [] at hs0 hw0 ha0
  cases res with
  | error e =>
    simp only []
    exact base effs hs0 hw0 ha0
  | ok u =>
  simp only []
  by_cases hdry : dryRun = true
  · subst hdry
    split
    · exact base effs hs0 hw0 ha0
    · next hcond => simp at hcond
  · have hdf : dryRun = false := by
      cases dryRun
      · rfl
      · exact absurd rfl hdry
    subst hdf
    split
    · next hcond => simp at hcond
    · cases db.executeAlter (swapSQLFor tableName) with
      | some err =>
        simp only []
        exact swapTail_monitor cfg race effs _ _ _ hs0 hw0
      | none =>
        simp only []
        exact swapTail_monitor cfg race effs _ _ _ hs0 hw0

/-- A concrete configuration for the witnesses: one-second monitor threshold,
no connection check, no archiver, no buffer-pool ceiling. -/
def sampleCfg : ManagerConfig :=
  ⟨1000, 1, false, false, 5, 5, false, 0, "user:pass@tcp(localhost:3306)/testdb"⟩

/-- A concrete oracle for the witnesses: every check succeeds. -/
def sampleOracle : DbOracle :=
  ⟨.ok (false, "app"), fun _ => .ok true, fun _ => .ok 100, .ok (),
   fun _ => none, fun _ _ => .ok 10, .ok ()⟩

/-- Witness for C9 with a positive threshold. -/
theorem swap_monitor_C9_witness :
    countMonitorStarted
      (SwapTable sampleCfg sampleOracle false SwapRaceOutcome.timerFired "users").2 ≤ 1 :=
  ((swap_monitor_C9 sampleCfg sampleOracle false SwapRaceOutcome.timerFired "users").2
    (by decide)).1

/-- C10: with dry-run set, neither executeQuery nor SwapTable nor
CleanupOldTable nor CleanupTriggers issues any mutating SQL statement to the
database client (read-only checks and the pt-archiver purge may still
occur). -/
theorem dry_run_no_mutation_C10 (cfg : ManagerConfig) (db : DbOracle)
    (race : SwapRaceOutcome) (tableName taskName : String) (q : QueryInfo)
    (execResult : Option DbError) :
    ((executeQueryRun true taskName q execResult).2).all
      (fun e => !isExecuteAlterEff e) = true
  ∧ ((SwapTable cfg db true race tableName).2).all
      (fun e => !isExecuteAlterEff e) = true
  ∧ ((CleanupOldTable cfg db true tableName).2).all
      (fun e => !isExecuteAlterEff e) = true
  ∧ ((CleanupTriggers cfg db true tableName).2).all
      (fun e => !isExecuteAlterEff e) = true := by
  refine ⟨?_, ?_, ?_, ?_⟩
  · simp [executeQueryRun]
  · have hsafe := preSwapChecks_trace_safe cfg db true tableName
    obtain ⟨_, _, ha0⟩ := safe_trace_counts hsafe
    unfold SwapTable
    cases hpre : preSwapChecks cfg db true tableName with
    | mk res effs =>
    rw [hpre] at ha0
    simp only [] at ha0
    cases res with
    | error e => simpa using ha0
    | ok u =>
      simp only []
      split
      · simpa using ha0
      · next hcond => simp at hcond
  · unfold CleanupOldTable
    simp only []
    by_cases hpa : cfg.ptArchiverEnabled = true
    · rw [if_pos hpa]
      cases db.ptArchiverPurge with
      | error e => simp [isExecuteAlterEff]
      | ok u =>
        simp only []
        by_cases hbp : cfg.bufferPoolSizeThresholdMB > 0
        · rw [if_pos hbp]
          cases extractDatabaseNameFromDSN cfg.dsn with
          | error e => simp [isExecuteAlterEff]
          | ok dbName =>
            simp only []
            cases db.bufferPoolSizeMB dbName (tableName ++ "_old") with
            | error e => simp [isExecuteAlterEff]
            | ok size =>
              simp only []
              by_cases hsz : size > cfg.bufferPoolSizeThresholdMB
              · rw [if_pos hsz]
                simp [isExecuteAlterEff]
              · rw [if_neg hsz]
                simp [isExecuteAlterEff]
        · rw [if_neg hbp]
          simp [isExecuteAlterEff]
    · rw [if_neg hpa]
      simp only []
      by_cases hbp : cfg.bufferPoolSizeThresholdMB > 0
      · rw [if_pos hbp]
        cases extractDatabaseNameFromDSN cfg.dsn with
        | error e => simp [isExecuteAlterEff]
        | ok dbName =>
          simp only []
          cases db.bufferPoolSizeMB dbName (tableName ++ "_old") with
          | error e => simp [isExecuteAlterEff]
          | ok size =>
            simp only []
            by_cases hsz : size > cfg.bufferPoolSizeThresholdMB
            · rw [if_pos hsz]
              simp [isExecuteAlterEff]
            · rw [if_neg hsz]
              simp [isExecuteAlterEff]
      · rw [if_neg hbp]
        simp [isExecuteAlterEff]
  · unfold CleanupTriggers
    cases extractDatabaseNameFromDSN cfg.dsn with
    | error e => simp
    | ok dbName =>
      simp [isExecuteAlterEff]

end Alterguard
